import Mathlib

/-
A shallow embedding of the reliability core of the recallbricks MCP client
(source file `src/unnamed/part_001`): the circuit breaker, the retrying
timeout-bounded fetch primitive, the request-deduplication map, the TTL-bounded
response cache used for graceful degradation, and the health-check probe.

Time is modelled as `Nat` milliseconds (`Date.now()`); the random jitter of the
backoff delay (`Math.random() * 1000`) is modelled as an explicit parameter;
the network is modelled as a function from attempt index to the outcome that
`fetch` produces on that attempt.
-/

namespace RecallBricks

/-- A raw HTTP response as seen by the client: status plus an abstract body. -/
structure HttpResponse where
  status : Nat
  body : String
deriving DecidableEq, Repr

/-- `response.ok` of the Fetch API: status in the range 200..299. -/
def HttpResponse.isOkResp (r : HttpResponse) : Bool :=
  200 ≤ r.status && r.status < 300

/-- The `APIError` class of the source (its data fields; `name` is constant). -/
structure APIError where
  message : String
  statusCode : Option Nat
  url : Option String
  attempts : Option Nat
  originalError : Option String
deriving DecidableEq, Repr

/-- JavaScript `a || b` on strings where `a` may be missing: the empty string is
falsy, so it also falls through to the fallback. -/
def jsOrString (s : Option String) (fallback : String) : String :=
  match s with
  | some m => if m = "" then fallback else m
  | none => fallback

-- ===========================================================================
-- CIRCUIT BREAKER (source lines 258-332)
-- ===========================================================================

/-- The three states of the `CircuitBreaker` class. -/
inductive BreakerState
  | CLOSED
  | OPEN
  | HALF_OPEN
deriving DecidableEq, Repr

/-- The mutable fields of a `CircuitBreaker` instance: `failures`,
`lastFailureTime`, `state`, `successCount`. -/
structure Breaker where
  failures : Nat
  lastFailureTime : Nat
  state : BreakerState
  successCount : Nat
deriving DecidableEq, Repr

/-- Constructor parameters of `CircuitBreaker`: `threshold` and `timeout`
(the OPEN cooldown in ms). -/
structure BreakerConfig where
  threshold : Nat
  timeout : Nat
deriving DecidableEq, Repr

/-- The initial breaker: `failures = 0`, `lastFailureTime = 0`, CLOSED,
`successCount = 0`. -/
def Breaker.initial : Breaker :=
  { failures := 0, lastFailureTime := 0, state := .CLOSED, successCount := 0 }

/-- `CircuitBreaker.onSuccess` (source lines 293-305): in HALF_OPEN the success
counter is incremented and on reaching 2 the breaker closes and clears
`failures` (`successCount` itself is not cleared there); in any other state
`failures` is cleared and the state set to CLOSED. -/
def Breaker.onSuccess (b : Breaker) : Breaker :=
  if b.state = .HALF_OPEN then
    let sc := b.successCount + 1
    if 2 ≤ sc then
      { failures := 0, lastFailureTime := b.lastFailureTime,
        state := .CLOSED, successCount := sc }
    else
      { failures := b.failures, lastFailureTime := b.lastFailureTime,
        state := b.state, successCount := sc }
  else
    { failures := 0, lastFailureTime := b.lastFailureTime,
      state := .CLOSED, successCount := b.successCount }

/-- `CircuitBreaker.onFailure` (source lines 307-318): increments `failures`
and records `lastFailureTime := now`; in HALF_OPEN any failure reopens the
breaker, otherwise the breaker opens once `failures` reaches the threshold. -/
def Breaker.onFailure (cfg : BreakerConfig) (now : Nat) (b : Breaker) : Breaker :=
  let f := b.failures + 1
  if b.state = .HALF_OPEN then
    { failures := f, lastFailureTime := now, state := .OPEN,
      successCount := b.successCount }
  else if cfg.threshold ≤ f then
    { failures := f, lastFailureTime := now, state := .OPEN,
      successCount := b.successCount }
  else
    { failures := f, lastFailureTime := now, state := b.state,
      successCount := b.successCount }

/-- The error thrown by `CircuitBreaker.execute` when the breaker is OPEN and
the cooldown has not elapsed (source lines 276-280): message and status 503,
no url, no attempt count. -/
def circuitBreakerOpenError : APIError :=
  { message := "Circuit breaker is OPEN - service temporarily unavailable. Please try again later.",
    statusCode := some 503, url := none, attempts := none, originalError := none }

/-- The gate at the top of `CircuitBreaker.execute` (source lines 270-281):
when OPEN, either transition to HALF_OPEN (resetting `successCount`) if more
than `timeout` ms have elapsed since the last failure, or throw the 503
breaker-open error; in any other state the call passes through unchanged. -/
def Breaker.gate (cfg : BreakerConfig) (now : Nat) (b : Breaker) :
    Except APIError Breaker :=
  if b.state = .OPEN then
    if cfg.timeout < now - b.lastFailureTime then
      .ok { failures := b.failures, lastFailureTime := b.lastFailureTime,
            state := .HALF_OPEN, successCount := 0 }
    else
      .error circuitBreakerOpenError
  else
    .ok b

/-- What the function wrapped by `execute` does when it is actually invoked. -/
inductive CallOutcome
  | success
  | failure
deriving DecidableEq, Repr

/-- Result of one `CircuitBreaker.execute` call: either the call was rejected
at the gate (the wrapped function was never invoked), or it was invoked and
returned, or it was invoked and its error was rethrown. Each carries the
breaker state after the call. -/
inductive ExecResult
  | rejected (e : APIError) (b : Breaker)
  | completed (b : Breaker)
  | raised (b : Breaker)
deriving DecidableEq, Repr

/-- `CircuitBreaker.execute` (source lines 269-291): gate, then invoke the
wrapped function, then account the outcome via `onSuccess` / `onFailure`. -/
def Breaker.execute (cfg : BreakerConfig) (now : Nat) (b : Breaker)
    (fn : CallOutcome) : ExecResult :=
  match b.gate cfg now with
  | .error e => .rejected e b
  | .ok b1 =>
    match fn with
    | .success => .completed b1.onSuccess
    | .failure => .raised (b1.onFailure cfg now)

/-- One success/failure report to the breaker; a failure carries the clock
value at which it is reported (`Date.now()` inside `onFailure`). -/
inductive BreakerEvent
  | success
  | failure (now : Nat)
deriving DecidableEq, Repr

/-- Apply one reported outcome to the breaker. -/
def Breaker.step (cfg : BreakerConfig) (b : Breaker) : BreakerEvent → Breaker
  | .success => b.onSuccess
  | .failure now => b.onFailure cfg now

/-- Apply a sequence of reported outcomes to the breaker, oldest first. -/
def Breaker.run (cfg : BreakerConfig) (b : Breaker) (evs : List BreakerEvent) :
    Breaker :=
  evs.foldl (Breaker.step cfg) b

/-- A sequence of failure reports at the given clock values. -/
def failureEvents (times : List Nat) : List BreakerEvent :=
  times.map BreakerEvent.failure

example :
    (Breaker.run ⟨5, 60000⟩ Breaker.initial (failureEvents [1, 2, 3, 4, 5])).state
      = .OPEN := by decide

example :
    (Breaker.run ⟨5, 60000⟩ Breaker.initial (failureEvents [1, 2, 3, 4])).state
      = .CLOSED := by decide

example :
    (Breaker.run ⟨5, 60000⟩ Breaker.initial
      (failureEvents [1, 2, 3, 4] ++ [.success] ++ failureEvents [6, 7, 8, 9])).state
      = .CLOSED := by decide

-- ===========================================================================
-- RETRY DELAYS (source lines 499-534 and 567-574)
-- ===========================================================================

/-- The parsed `Retry-After` header of a 429 response: either a number of
seconds, or an absolute HTTP-date (in epoch ms) — the `isNaN(Number(..))`
distinction at source lines 507-509. -/
inductive RetryAfterSignal
  | seconds (n : Nat)
  | httpDate (timeMs : Int)
deriving DecidableEq, Repr

/-- Delay chosen when a 429 response carries a `Retry-After` header (source
lines 507-509): a numeric header means that many seconds (times 1000 ms, no
jitter); a date header means the time remaining until that date, floored at
zero. -/
def retryAfterDelay (now : Int) : RetryAfterSignal → Int
  | .seconds n => (n : Int) * 1000
  | .httpDate t => max 0 (t - now)

/-- Exponential backoff with jitter (source lines 511, 527, 568):
`baseDelay * 2 ^ attempt + Math.random() * 1000`, with the random draw passed
in explicitly as `jitter`. -/
def backoffDelay (baseDelay : Int) (attempt : Nat) (jitter : Int) : Int :=
  baseDelay * 2 ^ attempt + jitter

/-- The full delay computation of the 429 branch (source lines 503-511):
honor a present `Retry-After` signal, otherwise fall back to exponential
backoff with jitter. -/
def rateLimitDelay (now baseDelay : Int) (attempt : Nat) (jitter : Int)
    (retryAfter : Option RetryAfterSignal) : Int :=
  match retryAfter with
  | some signal => retryAfterDelay now signal
  | none => backoffDelay baseDelay attempt jitter

example : rateLimitDelay 0 1000 0 777 (some (.seconds 2)) = 2000 := by decide

-- ===========================================================================
-- FETCH WITH RETRY (source lines 470-600)
-- ===========================================================================

/-- What one `fetch` attempt produces: a response (of any status), an abort
due to the per-attempt timeout (`AbortError`), or a transport-level error. -/
inductive AttemptOutcome
  | response (r : HttpResponse)
  | timeoutErr
  | transportErr (msg : String)
deriving DecidableEq, Repr

/-- The `APIError` built for a timed-out attempt (source lines 557-562). -/
def timeoutError (timeout : Nat) (url : String) (attempts : Nat) : APIError :=
  { message := "Request timeout after " ++ toString timeout ++ "ms",
    statusCode := some 408, url := some url, attempts := some attempts,
    originalError := none }

/-- A transport-level error kept as `lastError` unchanged (source line 564). -/
def transportError (msg : String) : APIError :=
  { message := msg, statusCode := none, url := none, attempts := none,
    originalError := none }

/-- The `APIError` thrown after all attempts are exhausted with no response
received (source lines 593-599): the last error's message (or
"Max retries exceeded"), no status code, the url, the attempt count, and the
last underlying error. -/
def maxRetriesError (url : String) (attempts : Nat) (lastError : Option APIError) :
    APIError :=
  { message := jsOrString (lastError.map (fun e => e.message)) "Max retries exceeded",
    statusCode := none, url := some url, attempts := some attempts,
    originalError := lastError.map (fun e => e.message) }

deriving instance DecidableEq for Except

/-- The value produced by one `fetchWithRetry` call: how many attempts were
made, and either the returned response or the thrown `APIError`. -/
structure RetryResult where
  attempts : Nat
  result : Except APIError HttpResponse
deriving DecidableEq, Repr

/-- The code after the retry loop (source lines 589-599): if any response was
ever received return the last one, otherwise throw the max-retries error. -/
def retryPostLoop (url : String) (attempts : Nat) (lastError : Option APIError)
    (lastResponse : Option HttpResponse) : RetryResult :=
  match lastResponse with
  | some r => { attempts := attempts, result := .ok r }
  | none => { attempts := attempts,
              result := .error (maxRetriesError url attempts lastError) }

/-- The retry loop of `fetchWithRetry` (source lines 482-599). `remaining` is
the number of loop iterations still allowed (`maxRetries + 1 - attempt`); at
`remaining = 0` the loop condition fails and the post-loop code runs (return
`lastResponse` if any response was ever received, else throw). A 429 or 5xx
response is recorded as `lastResponse` and retried while `attempt < maxRetries`
(on the final attempt it is returned as-is); any other response is returned
immediately; a thrown attempt records `lastError` and retries under the same
guard. -/
def fetchWithRetryGo (url : String) (timeout : Nat) (maxRetries : Nat)
    (outcomes : Nat → AttemptOutcome) :
    Nat → Nat → Option APIError → Option HttpResponse → RetryResult
  | 0, attempts, lastError, lastResponse =>
    retryPostLoop url attempts lastError lastResponse
  | remaining + 1, attempt, lastError, lastResponse =>
    match outcomes attempt with
    | .response r =>
      if r.status = 429 then
        if attempt < maxRetries then
          fetchWithRetryGo url timeout maxRetries outcomes remaining (attempt + 1)
            lastError (some r)
        else
          { attempts := attempt + 1, result := .ok r }
      else if 500 ≤ r.status then
        if attempt < maxRetries then
          fetchWithRetryGo url timeout maxRetries outcomes remaining (attempt + 1)
            lastError (some r)
        else
          { attempts := attempt + 1, result := .ok r }
      else
        { attempts := attempt + 1, result := .ok r }
    | .timeoutErr =>
      let e := timeoutError timeout url (attempt + 1)
      if attempt < maxRetries then
        fetchWithRetryGo url timeout maxRetries outcomes remaining (attempt + 1)
          (some e) lastResponse
      else
        retryPostLoop url (attempt + 1) (some e) lastResponse
    | .transportErr msg =>
      let e := transportError msg
      if attempt < maxRetries then
        fetchWithRetryGo url timeout maxRetries outcomes remaining (attempt + 1)
          (some e) lastResponse
      else
        retryPostLoop url (attempt + 1) (some e) lastResponse

/-- `fetchWithRetry` (source lines 470-600): run the loop over attempts
`0 .. maxRetries` starting with no recorded error or response. `baseDelay`
only shapes the waits between attempts, which do not affect the result. -/
def fetchWithRetry (url : String) (maxRetries baseDelay timeout : Nat)
    (outcomes : Nat → AttemptOutcome) : RetryResult :=
  fetchWithRetryGo url timeout maxRetries outcomes (maxRetries + 1) 0 none none

/-- Build the attempt-outcome oracle from a finite script (attempts beyond the
script's end fail with a transport error, which no well-formed run reaches). -/
def outcomesOf (l : List AttemptOutcome) : Nat → AttemptOutcome :=
  fun i => l.getD i (.transportErr "")

example :
    fetchWithRetry "u" 3 1000 30000
      (outcomesOf [.response ⟨503, "a"⟩, .response ⟨503, "b"⟩,
                   .response ⟨503, "c"⟩, .response ⟨200, "d"⟩])
      = { attempts := 4, result := .ok ⟨200, "d"⟩ } := by decide

example :
    fetchWithRetry "u" 3 1000 30000
      (outcomesOf [.transportErr "e0", .transportErr "e1",
                   .transportErr "e2", .transportErr "e3"])
      = { attempts := 4,
          result := .error { message := "e3", statusCode := none,
                             url := some "u", attempts := some 4,
                             originalError := some "e3" } } := by decide

-- ===========================================================================
-- REQUEST DEDUPLICATION CACHE (source lines 338-358)
-- ===========================================================================

/-- The `RequestCache` pending map: each in-flight request is an entry from its
fingerprint to a handle (call identifier) for the shared promise; `nextId` is
the supply of fresh handles. -/
structure DedupState where
  pending : List (String × Nat)
  nextId : Nat
deriving DecidableEq, Repr

/-- `RequestCache.fetch` (source lines 341-353): if a call for `key` is already
pending, hand back its handle without starting anything new; otherwise start
the producer (a fresh handle and a `true` new-call flag) and register it. -/
def DedupState.fetch (s : DedupState) (key : String) : Nat × Bool × DedupState :=
  match s.pending.find? (fun p => p.1 == key) with
  | some p => (p.2, false, s)
  | none =>
    (s.nextId, true,
      { pending := (key, s.nextId) :: s.pending, nextId := s.nextId + 1 })

/-- The `finally` callback of `RequestCache.fetch` (source lines 347-349): when
the underlying call settles — with a value or an error — its pending entry is
deleted. -/
def DedupState.settle (s : DedupState) (key : String) : DedupState :=
  { pending := s.pending.filter (fun p => !(p.1 == key)), nextId := s.nextId }

-- ===========================================================================
-- MEMORY CACHE FOR GRACEFUL DEGRADATION (source lines 364-393)
-- ===========================================================================

/-- One `CachedData<T>` entry: the payload and its insertion time. -/
structure CachedData (α : Type) where
  data : α
  timestamp : Nat
deriving DecidableEq, Repr

/-- The `MemoryCache<T>` map, as an association list keyed by the request
fingerprint. -/
abbrev MemoryCache (α : Type) : Type := List (String × CachedData α)

/-- `MemoryCache.set` (source lines 367-372): store the payload under the key
with the current time, overwriting any previous entry for that key. -/
def MemoryCache.set (c : MemoryCache α) (key : String) (data : α) (now : Nat) :
    MemoryCache α :=
  (key, { data := data, timestamp := now }) :: c.filter (fun p => !(p.1 == key))

/-- The entry currently stored for a key, if any. -/
def MemoryCache.getEntry (c : MemoryCache α) (key : String) :
    Option (CachedData α) :=
  (c.find? (fun p => p.1 == key)).map (fun p => p.2)

/-- `MemoryCache.get` (source lines 374-384): absent keys give `none`; an entry
older than `ttl` (strictly: `now - timestamp > ttl`) is deleted and `none` is
returned; otherwise the stored payload is returned. The possibly-updated map
is returned alongside. -/
def MemoryCache.get (c : MemoryCache α) (key : String) (ttl now : Nat) :
    Option α × MemoryCache α :=
  match c.getEntry key with
  | none => (none, c)
  | some cached =>
    if ttl < now - cached.timestamp then
      (none, c.filter (fun p => !(p.1 == key)))
    else
      (some cached.data, c)

-- ===========================================================================
-- QUERY PIPELINE WITH CACHE FALLBACK (source lines 711-764)
-- ===========================================================================

/-- Outcome of the cache-aware part of `queryMemoriesAPI`: the returned payload
with a served-from-cache marker, or the propagated error; plus the cache map
after the call. -/
structure QueryOutcome (α : Type) where
  result : Except APIError (α × Bool)
  cache : MemoryCache α
deriving DecidableEq, Repr

/-- The body of `queryMemoriesAPI` inside the circuit breaker (source lines
720-762), with the network part abstracted to its outcome `attempt`: on
success the payload is stored in the cache and returned (not from cache); on
any failure the cache is consulted — a live entry is returned as a degraded
(from-cache) success, otherwise the error propagates. -/
def queryPipeline (key : String) (attempt : Except APIError α)
    (cache : MemoryCache α) (ttl now : Nat) : QueryOutcome α :=
  match attempt with
  | .ok data =>
    { result := .ok (data, false), cache := cache.set key data now }
  | .error e =>
    match cache.get key ttl now with
    | (some cached, c2) => { result := .ok (cached, true), cache := c2 }
    | (none, c2) => { result := .error e, cache := c2 }

-- ===========================================================================
-- VALIDATION AND REQUEST KEY OF queryMemoriesAPI (source lines 419-448, 711-718)
-- ===========================================================================

/-- JavaScript `String.prototype.trim`: strip leading and trailing
whitespace (modelled over the character list so that it evaluates by
`decide`). -/
def jsTrim (s : String) : String :=
  ⟨((s.data.dropWhile Char.isWhitespace).reverse.dropWhile
      Char.isWhitespace).reverse⟩

/-- `validateQuery` (source lines 437-448): trim, reject the empty string. -/
def validateQuery (query : String) : Except APIError String :=
  let trimmed := jsTrim query
  if trimmed = "" then
    .error { message := "Query cannot be empty", statusCode := some 400,
             url := none, attempts := none, originalError := none }
  else
    .ok trimmed

/-- `validateLimit` (source lines 419-435): a missing or zero limit defaults to
5 (JavaScript `limit || 5`); out-of-range limits are rejected. -/
def validateLimit (limit : Option Nat) : Except APIError Nat :=
  let numLimit := match limit with
    | none => 5
    | some n => if n = 0 then 5 else n
  if numLimit < 1 then
    .error { message := "Limit must be at least 1", statusCode := some 400,
             url := none, attempts := none, originalError := none }
  else if 100 < numLimit then
    .error { message := "Limit cannot exceed 100", statusCode := some 400,
             url := none, attempts := none, originalError := none }
  else
    .ok numLimit

/-- The URL built by `queryMemoriesAPI` (source lines 716-717): the memories
endpoint with only the `limit` search parameter appended. -/
def queryMemoriesURL (apiUrl : String) (validatedLimit : Nat) : String :=
  apiUrl ++ "/api/v1/memories?limit=" ++ toString validatedLimit

/-- The deduplication fingerprint and fallback-cache key of `queryMemoriesAPI`
(source line 718): `"GET:" ++ url`. The validated query text is computed
(source line 712) but never used in the URL or the key. -/
def queryMemoriesCacheKey (apiUrl : String) (query : String)
    (limit : Option Nat) : Except APIError String := do
  let _validatedQuery ← validateQuery query
  let validatedLimit ← validateLimit limit
  pure ("GET:" ++ queryMemoriesURL apiUrl validatedLimit)

/-- The `APIError` thrown by `queryMemoriesAPI` on a non-ok response (source
lines 730-737): the body's message if present and non-empty, else a fallback
naming the operation and the response's status text; the response status and
the url; no attempt count. -/
def queryMemoriesFailError (bodyMsg : Option String) (status : Nat)
    (statusText url : String) : APIError :=
  { message := jsOrString bodyMsg ("Failed to query memories: " ++ statusText),
    statusCode := some status, url := some url, attempts := none,
    originalError := none }

-- ===========================================================================
-- HEALTH CHECK (source lines 614-668)
-- ===========================================================================

/-- The probe target (source line 617). -/
def healthCheckPath (apiUrl : String) : String := apiUrl ++ "/health"

/-- `healthCheck` (source lines 614-656): one `fetchWithRetry` call with
`maxRetries = 1`, `baseDelay = 500`, `timeout = 5000`; `healthy` is
`response.ok`; any thrown error is caught and reported as `false`. The breaker
is only read for the logged snapshot, never updated — the probe does not go
through `circuitBreaker.execute`. -/
def healthCheck (apiUrl : String) (breaker : Breaker)
    (outcomes : Nat → AttemptOutcome) : Bool × Breaker :=
  match (fetchWithRetry (healthCheckPath apiUrl) 1 500 5000 outcomes).result with
  | .ok r => (r.isOkResp, breaker)
  | .error _ => (false, breaker)

-- ===========================================================================
-- GENERAL HELPER LEMMAS
-- ===========================================================================

theorem string_append_ne_empty_left {s : String} (t : String) (h : s ≠ "") :
    s ++ t ≠ "" := by
  intro he
  apply h
  cases s with | mk d =>
  cases t with | mk d2 =>
  have hd : d ++ d2 = [] := congrArg String.data he
  have hnil := List.append_eq_nil.mp hd
  simp [hnil.1]

theorem jsOrString_ne_empty (s : Option String) {fallback : String}
    (h : fallback ≠ "") : jsOrString s fallback ≠ "" := by
  cases s with
  | none => exact h
  | some m =>
    by_cases hm : m = "" <;> simp [jsOrString, hm, h]

-- ===========================================================================
-- CLAIM C4 — OPEN-state gating of the circuit breaker
-- ===========================================================================

/-- C4: while the breaker is OPEN, a call arriving with
`now - lastFailureTimestamp <= cooldownDuration` is rejected immediately with
the 503 service-unavailable error and the wrapped pipeline is never invoked
(the breaker is left untouched); with `now - lastFailureTimestamp >
cooldownDuration` the gate transitions the breaker to HALF_OPEN with
`halfOpenSuccesses` reset to 0 and the call proceeds to the wrapped function;
and a gate transition into HALF_OPEN can only ever happen from OPEN after the
cooldown has elapsed. -/
theorem claim_C4_open_breaker_gating (cfg : BreakerConfig) (now : Nat)
    (b : Breaker) (hO : b.state = .OPEN) :
    (now - b.lastFailureTime ≤ cfg.timeout →
      (∀ fn, Breaker.execute cfg now b fn = .rejected circuitBreakerOpenError b) ∧
      circuitBreakerOpenError.statusCode = some 503) ∧
    (cfg.timeout < now - b.lastFailureTime →
      Breaker.gate cfg now b =
        .ok { failures := b.failures, lastFailureTime := b.lastFailureTime,
              state := .HALF_OPEN, successCount := 0 } ∧
      Breaker.execute cfg now b .success =
        .completed (Breaker.onSuccess
          { failures := b.failures, lastFailureTime := b.lastFailureTime,
            state := .HALF_OPEN, successCount := 0 }) ∧
      Breaker.execute cfg now b .failure =
        .raised (Breaker.onFailure cfg now
          { failures := b.failures, lastFailureTime := b.lastFailureTime,
            state := .HALF_OPEN, successCount := 0 })) ∧
    (∀ (n2 : Nat) (b2 b3 : Breaker), Breaker.gate cfg n2 b2 = .ok b3 →
      b3.state = .HALF_OPEN → b2.state ≠ .HALF_OPEN →
      b2.state = .OPEN ∧ cfg.timeout < n2 - b2.lastFailureTime) := by
  refine ⟨fun hle => ?_, fun hlt => ?_, fun n2 b2 b3 hg h3 h2 => ?_⟩
  · refine ⟨fun fn => ?_, rfl⟩
    have hnlt : ¬ cfg.timeout < now - b.lastFailureTime := Nat.not_lt.mpr hle
    simp [Breaker.execute, Breaker.gate, hO, hnlt]
  · refine ⟨?_, ?_, ?_⟩ <;> simp [Breaker.execute, Breaker.gate, hO, hlt]
  · by_cases hs : b2.state = .OPEN
    · refine ⟨hs, ?_⟩
      by_cases ht : cfg.timeout < n2 - b2.lastFailureTime
      · exact ht
      · simp [Breaker.gate, hs, ht] at hg
    · simp [Breaker.gate, hs] at hg
      rw [← hg] at h3
      exact absurd h3 h2

/-- Witness for C4 at a concrete OPEN breaker within the cooldown window. -/
theorem claim_C4_witness :
    (Breaker.state ⟨5, 90, .OPEN, 0⟩ = .OPEN) ∧
    ((100 : Nat) - 90 ≤ 60000) ∧
    (Breaker.execute ⟨5, 60000⟩ 100 ⟨5, 90, .OPEN, 0⟩ .success
      = .rejected circuitBreakerOpenError ⟨5, 90, .OPEN, 0⟩) :=
  ⟨rfl, by decide,
    ((claim_C4_open_breaker_gating ⟨5, 60000⟩ 100 ⟨5, 90, .OPEN, 0⟩ rfl).1
      (by decide)).1 .success⟩

-- ===========================================================================
-- CLAIM C5 — HALF_OPEN recovery (corrected)
-- ===========================================================================

/-- C5 counterexample: from a HALF_OPEN breaker with `successCount = 0`, two
successes do reach CLOSED with `failures = 0`, but `successCount` is 2, not 0
— the claimed reset of `halfOpenSuccesses` to 0 on recovery does not happen. -/
theorem claim_C5_counterexample :
    (Breaker.onSuccess (Breaker.onSuccess ⟨3, 100, .HALF_OPEN, 0⟩)).state
      = .CLOSED ∧
    (Breaker.onSuccess (Breaker.onSuccess ⟨3, 100, .HALF_OPEN, 0⟩)).failures
      = 0 ∧
    ¬ (Breaker.onSuccess (Breaker.onSuccess ⟨3, 100, .HALF_OPEN, 0⟩)).successCount
      = 0 := by
  decide

/-- C5 (amended): in HALF_OPEN with `halfOpenSuccesses = 0`, one success keeps
the breaker HALF_OPEN with the counter at 1, and a second success transitions
to CLOSED with `consecutiveFailures` reset to 0 — but `halfOpenSuccesses` is
left at 2, being reset to 0 only at the next OPEN-to-HALF_OPEN transition; a
single failure at any point while HALF_OPEN (before or after one success)
transitions immediately back to OPEN and records the failure timestamp. -/
theorem claim_C5_half_open_recovery (cfg : BreakerConfig) (b : Breaker)
    (hH : b.state = .HALF_OPEN) (hs : b.successCount = 0) :
    ((Breaker.onSuccess b).state = .HALF_OPEN ∧
      (Breaker.onSuccess b).successCount = 1) ∧
    ((Breaker.onSuccess (Breaker.onSuccess b)).state = .CLOSED ∧
      (Breaker.onSuccess (Breaker.onSuccess b)).failures = 0 ∧
      (Breaker.onSuccess (Breaker.onSuccess b)).successCount = 2) ∧
    (∀ now, (Breaker.onFailure cfg now b).state = .OPEN ∧
      (Breaker.onFailure cfg now b).lastFailureTime = now ∧
      (Breaker.onFailure cfg now (Breaker.onSuccess b)).state = .OPEN) ∧
    (∀ (now : Nat) (b2 : Breaker), b2.state = .OPEN →
      cfg.timeout < now - b2.lastFailureTime →
      Breaker.gate cfg now b2 =
        .ok { failures := b2.failures, lastFailureTime := b2.lastFailureTime,
              state := .HALF_OPEN, successCount := 0 }) := by
  refine ⟨?_, ?_, fun now => ?_, fun now b2 h2 ht => ?_⟩
  · simp [Breaker.onSuccess, hH, hs]
  · simp [Breaker.onSuccess, hH, hs]
  · refine ⟨?_, ?_, ?_⟩ <;> simp [Breaker.onFailure, Breaker.onSuccess, hH, hs]
  · simp [Breaker.gate, h2, ht]

/-- Witness for C5 (amended) at a concrete HALF_OPEN breaker. -/
theorem claim_C5_witness :
    (Breaker.state ⟨3, 100, .HALF_OPEN, 0⟩ = .HALF_OPEN) ∧
    (Breaker.successCount ⟨3, 100, .HALF_OPEN, 0⟩ = 0) ∧
    ((Breaker.onSuccess (Breaker.onSuccess ⟨3, 100, .HALF_OPEN, 0⟩)).state
      = .CLOSED ∧
     (Breaker.onSuccess (Breaker.onSuccess ⟨3, 100, .HALF_OPEN, 0⟩)).failures = 0 ∧
     (Breaker.onSuccess (Breaker.onSuccess ⟨3, 100, .HALF_OPEN, 0⟩)).successCount
      = 2) :=
  ⟨rfl, rfl,
    (claim_C5_half_open_recovery ⟨5, 60000⟩ ⟨3, 100, .HALF_OPEN, 0⟩ rfl rfl).2.1⟩

-- ===========================================================================
-- CLAIM C6 — retry delay computation
-- ===========================================================================

/-- C6: a 429 with a numeric `Retry-After` of n seconds waits exactly
`n * 1000` ms with no jitter (the delay does not depend on the jitter draw);
an absolute-time signal waits `max 0 (time - now)`; a 429 without a signal
uses the backoff formula, which equals `baseDelay * 2 ^ attemptIndex + jitter`
for a jitter draw in `[0, 1000)`, so the backoff delay lies in
`[baseDelay * 2 ^ attemptIndex, baseDelay * 2 ^ attemptIndex + 1000)`. -/
theorem claim_C6_retry_delay (now baseDelay : Int) (attempt : Nat)
    (jitter : Int) (n : Nat) (t : Int)
    (hj0 : 0 ≤ jitter) (hj1 : jitter < 1000) :
    rateLimitDelay now baseDelay attempt jitter (some (.seconds n))
      = (n : Int) * 1000 ∧
    rateLimitDelay now baseDelay attempt jitter (some (.httpDate t))
      = max 0 (t - now) ∧
    rateLimitDelay now baseDelay attempt jitter none
      = backoffDelay baseDelay attempt jitter ∧
    backoffDelay baseDelay attempt jitter
      = baseDelay * 2 ^ attempt + jitter ∧
    baseDelay * 2 ^ attempt ≤ backoffDelay baseDelay attempt jitter ∧
    backoffDelay baseDelay attempt jitter < baseDelay * 2 ^ attempt + 1000 := by
  refine ⟨rfl, rfl, rfl, rfl, ?_, ?_⟩
  · simpa [backoffDelay] using Int.add_le_add_left hj0 (baseDelay * 2 ^ attempt)
  · simpa [backoffDelay] using Int.add_lt_add_left hj1 (baseDelay * 2 ^ attempt)

/-- Witness for C6: `Retry-After: 2` gives exactly 2000 ms whatever the jitter
draw (here 500). -/
theorem claim_C6_witness :
    ((0 : Int) ≤ 500) ∧ ((500 : Int) < 1000) ∧
    rateLimitDelay 0 1000 0 500 (some (.seconds 2)) = 2000 := by
  refine ⟨by decide, by decide, ?_⟩
  have h := (claim_C6_retry_delay 0 1000 0 500 2 0 (by decide) (by decide)).1
  simpa using h

-- ===========================================================================
-- CLAIM C8 — error payload fields (corrected)
-- ===========================================================================

/-- C8 counterexample: the breaker-open error is actually surfaced by
`execute` on an OPEN breaker within the cooldown, and it carries neither the
target URL nor the attempt count — refuting the claim that every surfaced
error carries both. -/
theorem claim_C8_counterexample :
    Breaker.execute ⟨5, 60000⟩ 150 ⟨5, 100, .OPEN, 0⟩ .success
      = .rejected circuitBreakerOpenError ⟨5, 100, .OPEN, 0⟩ ∧
    circuitBreakerOpenError.url = none ∧
    circuitBreakerOpenError.attempts = none := by
  decide

/-- C8 (amended): every surfaced error carries a non-empty human-readable
message and a status code where applicable, but not all carry the URL and the
attempt count: the retry-exhaustion error and the per-attempt timeout error
carry both the URL and the attempt count; the circuit-breaker OPEN error
carries the 503 status but neither URL nor attempt count; and the API helper's
non-ok-response error carries the status and the URL but no attempt count. -/
theorem claim_C8_error_fields (url statusText : String) (timeout status : Nat)
    (attempts : Nat) (lastError : Option APIError) (bodyMsg : Option String) :
    ((maxRetriesError url attempts lastError).url = some url ∧
      (maxRetriesError url attempts lastError).attempts = some attempts ∧
      (maxRetriesError url attempts lastError).message ≠ "") ∧
    ((timeoutError timeout url attempts).statusCode = some 408 ∧
      (timeoutError timeout url attempts).url = some url ∧
      (timeoutError timeout url attempts).attempts = some attempts ∧
      (timeoutError timeout url attempts).message ≠ "") ∧
    (circuitBreakerOpenError.message ≠ "" ∧
      circuitBreakerOpenError.statusCode = some 503 ∧
      circuitBreakerOpenError.url = none ∧
      circuitBreakerOpenError.attempts = none) ∧
    ((queryMemoriesFailError bodyMsg status statusText url).statusCode
        = some status ∧
      (queryMemoriesFailError bodyMsg status statusText url).url = some url ∧
      (queryMemoriesFailError bodyMsg status statusText url).attempts = none ∧
      (queryMemoriesFailError bodyMsg status statusText url).message ≠ "") := by
  refine ⟨⟨rfl, rfl, ?_⟩, ⟨rfl, rfl, rfl, ?_⟩, ⟨by decide, rfl, rfl, rfl⟩,
    ⟨rfl, rfl, rfl, ?_⟩⟩
  · exact jsOrString_ne_empty _ (by decide)
  · show "Request timeout after " ++ toString timeout ++ "ms" ≠ ""
    exact string_append_ne_empty_left _
      (string_append_ne_empty_left _ (by decide))
  · exact jsOrString_ne_empty _
      (string_append_ne_empty_left _ (by decide))

-- ===========================================================================
-- CLAIM C1 — CLOSED-state failure counting
-- ===========================================================================

theorem onFailure_closed_step (cfg : BreakerConfig) (now : Nat) (b : Breaker)
    (hC : b.state = .CLOSED) :
    (Breaker.onFailure cfg now b).failures = b.failures + 1 ∧
    (Breaker.onFailure cfg now b).lastFailureTime = now ∧
    (b.failures + 1 < cfg.threshold →
      (Breaker.onFailure cfg now b).state = .CLOSED) ∧
    (cfg.threshold ≤ b.failures + 1 →
      (Breaker.onFailure cfg now b).state = .OPEN) := by
  by_cases hth : cfg.threshold ≤ b.failures + 1 <;>
    refine ⟨?_, ?_, fun hlt => ?_, fun hge => ?_⟩ <;>
      simp [Breaker.onFailure, hC, hth] <;> omega

theorem run_failures_closed (cfg : BreakerConfig) :
    ∀ (times : List Nat) (b : Breaker), b.state = .CLOSED →
      b.failures + times.length < cfg.threshold →
      (Breaker.run cfg b (failureEvents times)).state = .CLOSED ∧
      (Breaker.run cfg b (failureEvents times)).failures
        = b.failures + times.length := by
  intro times
  induction times with
  | nil =>
    intro b hC _
    constructor
    · simpa [Breaker.run, failureEvents] using hC
    · simp [Breaker.run, failureEvents]
  | cons t ts ih =>
    intro b hC hlen
    have hstep := onFailure_closed_step cfg t b hC
    have hC2 : (Breaker.onFailure cfg t b).state = .CLOSED :=
      hstep.2.2.1 (by simp at hlen; omega)
    have hrec := ih (Breaker.onFailure cfg t b) hC2
      (by rw [hstep.1]; simp at hlen ⊢; omega)
    constructor
    · simpa [Breaker.run, failureEvents, Breaker.step] using hrec.1
    · have := hrec.2
      rw [hstep.1] at this
      simp [Breaker.run, failureEvents, Breaker.step] at this ⊢
      omega

theorem run_failures_open (cfg : BreakerConfig) :
    ∀ (times : List Nat) (b : Breaker), b.state = .CLOSED →
      ∀ hne : times ≠ [],
      b.failures + times.length = cfg.threshold →
      (Breaker.run cfg b (failureEvents times)).state = .OPEN ∧
      (Breaker.run cfg b (failureEvents times)).lastFailureTime
        = times.getLast hne := by
  intro times
  induction times with
  | nil => intro b _ hne _; exact absurd rfl hne
  | cons t ts ih =>
    intro b hC _ hlen
    by_cases hts : ts = []
    · subst hts
      have hstep := onFailure_closed_step cfg t b hC
      have hO : (Breaker.onFailure cfg t b).state = .OPEN :=
        hstep.2.2.2 (by simp at hlen; omega)
      constructor
      · simpa [Breaker.run, failureEvents, Breaker.step] using hO
      · simpa [Breaker.run, failureEvents, Breaker.step] using hstep.2.1
    · have hstep := onFailure_closed_step cfg t b hC
      have hC2 : (Breaker.onFailure cfg t b).state = .CLOSED := by
        apply hstep.2.2.1
        have : 1 ≤ ts.length := List.length_pos.mpr hts
        simp at hlen
        omega
      have hrec := ih (Breaker.onFailure cfg t b) hC2 hts
        (by rw [hstep.1]; simp at hlen ⊢; omega)
      constructor
      · simpa [Breaker.run, failureEvents, Breaker.step] using hrec.1
      · have := hrec.2
        simp [Breaker.run, failureEvents, Breaker.step] at this ⊢
        rw [this, List.getLast_cons hts]

/-- C1: in CLOSED (with the running invariant `failures < threshold`), every
reported failure increments the consecutive-failure counter and records its
timestamp, the state flips to OPEN exactly when the counter reaches the
threshold, and any success resets the counter to 0 while staying CLOSED;
consequently, starting from a fresh CLOSED breaker, any run of fewer than
`threshold` consecutive failures leaves the breaker CLOSED with the counter
equal to the run length, while a run of exactly `threshold` consecutive
failures (no intervening success) opens the breaker, recording the last
failure's timestamp. -/
theorem claim_C1_closed_failure_counting (cfg : BreakerConfig) (b : Breaker)
    (hT : 1 ≤ cfg.threshold) (hC : b.state = .CLOSED)
    (hInv : b.failures < cfg.threshold) :
    (∀ now,
      (Breaker.onFailure cfg now b).failures = b.failures + 1 ∧
      (Breaker.onFailure cfg now b).lastFailureTime = now ∧
      ((Breaker.onFailure cfg now b).state = .OPEN ↔
        b.failures + 1 = cfg.threshold)) ∧
    ((Breaker.onSuccess b).failures = 0 ∧ (Breaker.onSuccess b).state = .CLOSED) ∧
    (b.failures = 0 →
      ∀ times : List Nat,
        (times.length < cfg.threshold →
          (Breaker.run cfg b (failureEvents times)).state = .CLOSED ∧
          (Breaker.run cfg b (failureEvents times)).failures = times.length) ∧
        (∀ hlen : times.length = cfg.threshold,
          (Breaker.run cfg b (failureEvents times)).state = .OPEN ∧
          (Breaker.run cfg b (failureEvents times)).lastFailureTime
            = times.getLast (by intro hnil; rw [hnil] at hlen; simp at hlen; omega))) := by
  refine ⟨fun now => ?_, ?_, fun h0 times => ⟨fun hlt => ?_, fun hlen => ?_⟩⟩
  · have hstep := onFailure_closed_step cfg now b hC
    refine ⟨hstep.1, hstep.2.1, ?_⟩
    constructor
    · intro hOpen
      by_contra hne
      have hlt : b.failures + 1 < cfg.threshold := by omega
      have := hstep.2.2.1 hlt
      rw [this] at hOpen
      exact absurd hOpen (by decide)
    · intro heq
      exact hstep.2.2.2 (by omega)
  · constructor <;> simp [Breaker.onSuccess, hC]
  · have := run_failures_closed cfg times b hC (by omega)
    exact ⟨this.1, by rw [this.2, h0, Nat.zero_add]⟩
  · have hne : times ≠ [] := by
      intro hnil; rw [hnil] at hlen; simp at hlen; omega
    exact run_failures_open cfg times b hC hne (by omega)

/-- Witness for C1: with threshold 5, five consecutive failures from the fresh
breaker open it, four leave it CLOSED. -/
theorem claim_C1_witness :
    (1 ≤ (5 : Nat)) ∧ (Breaker.initial.state = .CLOSED) ∧
    (Breaker.initial.failures < 5) ∧
    ((Breaker.run ⟨5, 60000⟩ Breaker.initial
        (failureEvents [10, 20, 30, 40, 50])).state = .OPEN ∧
     (Breaker.run ⟨5, 60000⟩ Breaker.initial
        (failureEvents [10, 20, 30, 40, 50])).lastFailureTime = 50) :=
  ⟨by decide, rfl, by decide, by
    have h := ((claim_C1_closed_failure_counting ⟨5, 60000⟩ Breaker.initial
      (by decide) rfl (by decide)).2.2 rfl [10, 20, 30, 40, 50]).2 (by decide)
    simpa using h⟩

-- ===========================================================================
-- ASSOC-LIST HELPERS (shared by the cache and dedup models)
-- ===========================================================================

theorem find?_filter_beq_ne {β : Type} (l : List (String × β)) (key : String) :
    (l.filter (fun p => !(p.1 == key))).find? (fun p => p.1 == key) = none := by
  induction l with
  | nil => rfl
  | cons hd tl ih =>
    by_cases h : hd.1 = key
    · simp [List.filter_cons, h, ih]
    · simp [List.filter_cons, List.find?_cons, h, ih]

theorem key_not_mem_of_find?_none {β : Type} {l : List (String × β)}
    {key : String} (h : l.find? (fun p => p.1 == key) = none) :
    key ∉ l.map Prod.fst := by
  intro hmem
  rw [List.find?_eq_none] at h
  obtain ⟨p, hp, hfst⟩ := List.mem_map.mp hmem
  exact h p hp (by simp [hfst])

theorem getEntry_set_self {α : Type} (c : MemoryCache α) (key : String)
    (d : α) (now : Nat) :
    (c.set key d now).getEntry key = some { data := d, timestamp := now } := by
  simp [MemoryCache.set, MemoryCache.getEntry, List.find?_cons]

theorem getEntry_filter_ne {α : Type} (c : MemoryCache α) (key : String) :
    MemoryCache.getEntry (c.filter (fun p => !(p.1 == key))) key = none := by
  simp [MemoryCache.getEntry, find?_filter_beq_ne]

theorem queryPipeline_fallback_within_ttl {α : Type} (key : String) (data : α)
    (cache : MemoryCache α) (t1 t2 ttl : Nat) (e : APIError)
    (hle : t2 - t1 ≤ ttl) :
    queryPipeline key (.error e)
        (queryPipeline key (.ok data) cache ttl t1).cache ttl t2
      = { result := .ok (data, true),
          cache := (queryPipeline key (.ok data) cache ttl t1).cache } := by
  have hset := getEntry_set_self cache key data t1
  have hnlt : ¬ ttl < t2 - t1 := Nat.not_lt.mpr hle
  simp [queryPipeline, MemoryCache.get, hset, hnlt]

-- ===========================================================================
-- CLAIM C3 — cache fallback with TTL
-- ===========================================================================

/-- C3: a successful read stores its payload in the response cache under its
key with its time; a later failing read for the same key within the TTL
(`now - storedTime <= ttl`) returns the cached payload as a degraded
(from-cache) success with the cache untouched; once more than the TTL has
elapsed, the lookup comes back absent, the stale entry is evicted on that
read, and the original failure propagates. -/
theorem claim_C3_cache_fallback {α : Type} (key : String) (data : α)
    (cache : MemoryCache α) (t1 t2 ttl : Nat) (e : APIError) :
    ((queryPipeline key (.ok data) cache ttl t1).result = .ok (data, false)) ∧
    ((queryPipeline key (.ok data) cache ttl t1).cache.getEntry key
      = some { data := data, timestamp := t1 }) ∧
    (t2 - t1 ≤ ttl →
      queryPipeline key (.error e)
          (queryPipeline key (.ok data) cache ttl t1).cache ttl t2
        = { result := .ok (data, true),
            cache := (queryPipeline key (.ok data) cache ttl t1).cache }) ∧
    (ttl < t2 - t1 →
      (queryPipeline key (.error e)
          (queryPipeline key (.ok data) cache ttl t1).cache ttl t2).result
        = .error e ∧
      (queryPipeline key (.error e)
          (queryPipeline key (.ok data) cache ttl t1).cache ttl t2).cache.getEntry
          key = none) := by
  have hset := getEntry_set_self cache key data t1
  refine ⟨rfl, hset, fun hle => ?_, fun hgt => ?_⟩
  · exact queryPipeline_fallback_within_ttl key data cache t1 t2 ttl e hle
  · constructor
    · simp [queryPipeline, MemoryCache.get, hset, hgt]
    · simp [queryPipeline, MemoryCache.get, hset, hgt]
      exact getEntry_filter_ne _ key

/-- Witness for C3: a concrete store-then-fail sequence inside the TTL serves
the cached payload as a degraded success. -/
theorem claim_C3_witness :
    ((100 : Nat) - 0 ≤ 3600000) ∧
    (queryPipeline "k" (.error circuitBreakerOpenError)
        (queryPipeline "k" (Except.ok (7 : Nat)) [] 3600000 0).cache 3600000 100
      = { result := .ok (7, true),
          cache := (queryPipeline "k" (Except.ok (7 : Nat)) [] 3600000 0).cache }) :=
  ⟨by decide,
    (claim_C3_cache_fallback "k" 7 [] 0 100 3600000
      circuitBreakerOpenError).2.2.1 (by decide)⟩

-- ===========================================================================
-- CLAIM C7 — request deduplication
-- ===========================================================================

/-- C7: when no call for a fingerprint is pending, a call starts the producer
and registers it; a second call arriving while it is in flight starts nothing
new, leaves the pending map unchanged, and receives the same handle — hence
the same eventual outcome, value or error; settling the call (success or
failure alike) removes the fingerprint's entry, so a later call starts fresh;
and both operations preserve distinctness of pending fingerprints, so at most
one in-flight entry exists per fingerprint at any instant. -/
theorem fetch_fresh_flag {s : DedupState} {key : String}
    (h : s.pending.find? (fun p => p.1 == key) = none) :
    (s.fetch key).2.1 = true := by
  simp [DedupState.fetch, h]

theorem fetch_fresh_eq {s : DedupState} {key : String}
    (h : s.pending.find? (fun p => p.1 == key) = none) :
    s.fetch key =
      (s.nextId, true,
        { pending := (key, s.nextId) :: s.pending, nextId := s.nextId + 1 }) := by
  simp [DedupState.fetch, h]

theorem fetch_dedups {s : DedupState} {key : String}
    (h : s.pending.find? (fun p => p.1 == key) = none) :
    DedupState.fetch (s.fetch key).2.2 key
      = ((s.fetch key).1, false, (s.fetch key).2.2) := by
  rw [fetch_fresh_eq h]
  simp [DedupState.fetch, List.find?_cons]

theorem claim_C7_dedup (s : DedupState) (key : String)
    (hfresh : s.pending.find? (fun p => p.1 == key) = none)
    (hnd : (s.pending.map Prod.fst).Nodup) :
    ((s.fetch key).2.1 = true) ∧
    (DedupState.fetch (s.fetch key).2.2 key
      = ((s.fetch key).1, false, (s.fetch key).2.2)) ∧
    (∀ outcome : Nat → Except APIError HttpResponse,
      outcome (DedupState.fetch (s.fetch key).2.2 key).1
        = outcome (s.fetch key).1) ∧
    ((DedupState.settle (s.fetch key).2.2 key).pending.find?
        (fun p => p.1 == key) = none) ∧
    ((DedupState.fetch (DedupState.settle (s.fetch key).2.2 key) key).2.1
      = true) ∧
    (((s.fetch key).2.2.pending.map Prod.fst).Nodup) ∧
    (((DedupState.settle (s.fetch key).2.2 key).pending.map Prod.fst).Nodup) := by
  have hfetch : s.fetch key =
      (s.nextId, true,
        { pending := (key, s.nextId) :: s.pending, nextId := s.nextId + 1 }) := by
    simp [DedupState.fetch, hfresh]
  have hsettle : (DedupState.settle (s.fetch key).2.2 key).pending.find?
      (fun p => p.1 == key) = none := by
    rw [hfetch]
    exact find?_filter_beq_ne _ key
  have hnd1 : (((s.fetch key).2.2).pending.map Prod.fst).Nodup := by
    rw [hfetch]
    simp only [List.map_cons]
    exact List.nodup_cons.mpr ⟨key_not_mem_of_find?_none hfresh, hnd⟩
  refine ⟨by rw [hfetch], ?_, ?_, hsettle, ?_, hnd1, ?_⟩
  · rw [hfetch]
    simp [DedupState.fetch, List.find?_cons]
  · intro outcome
    rw [hfetch]
    simp [DedupState.fetch, List.find?_cons]
  · exact fetch_fresh_flag hsettle
  · refine List.Nodup.sublist ?_ hnd1
    exact List.Sublist.map Prod.fst (List.filter_sublist _)

/-- Witness for C7 from the empty pending map. -/
theorem claim_C7_witness :
    ((DedupState.pending ⟨[], 0⟩).find? (fun p => p.1 == "k") = none) ∧
    (((DedupState.pending ⟨[], 0⟩).map Prod.fst).Nodup) ∧
    (DedupState.fetch (DedupState.fetch ⟨[], 0⟩ "k").2.2 "k"
      = ((DedupState.fetch ⟨[], 0⟩ "k").1, false,
         (DedupState.fetch ⟨[], 0⟩ "k").2.2)) :=
  ⟨rfl, by decide, (claim_C7_dedup ⟨[], 0⟩ "k" rfl (by decide)).2.1⟩

-- ===========================================================================
-- CLAIM C9 — health probe and the circuit breaker (corrected)
-- ===========================================================================

/-- C9 counterexample: a probe whose every attempt fails leaves the circuit
breaker exactly as it was — the probe's failure is not counted in the
breaker's accounting, which a pass through the breaker gate would require
(a counted failure increments `failures`, as shown alongside). -/
theorem claim_C9_counterexample :
    (healthCheck "https://api" Breaker.initial
        (outcomesOf [.transportErr "connection refused",
                     .transportErr "connection refused"])
      = (false, Breaker.initial)) ∧
    (Breaker.initial.failures = 0) ∧
    ((Breaker.onFailure ⟨5, 60000⟩ 1 Breaker.initial).failures = 1) := by
  decide

/-- C9 (amended): the health probe is issued through the retrying fetch
primitive alone, with `maxRetries = 1`, `baseDelay = 500` and
`timeout = 5000`, and never through the circuit breaker, whose state it never
modifies; the probe never raises to its caller: when the underlying fetch
throws, the error is swallowed and the probe reports unhealthy (`false`), and
when a response comes back the probe reports its `ok` flag. -/
theorem claim_C9_probe (apiUrl : String) (b : Breaker)
    (outcomes : Nat → AttemptOutcome) :
    ((healthCheck apiUrl b outcomes).2 = b) ∧
    (∀ e, (fetchWithRetry (healthCheckPath apiUrl) 1 500 5000 outcomes).result
        = .error e →
      (healthCheck apiUrl b outcomes).1 = false) ∧
    (∀ r, (fetchWithRetry (healthCheckPath apiUrl) 1 500 5000 outcomes).result
        = .ok r →
      (healthCheck apiUrl b outcomes).1 = r.isOkResp) := by
  refine ⟨?_, fun e he => ?_, fun r hr => ?_⟩
  · unfold healthCheck
    cases h : (fetchWithRetry (healthCheckPath apiUrl) 1 500 5000 outcomes).result <;>
      simp [h]
  · simp [healthCheck, he]
  · simp [healthCheck, hr]

/-- Witness for C9 (amended): a probe whose two attempts both fail swallows
the final error and reports false. -/
theorem claim_C9_witness :
    ((fetchWithRetry (healthCheckPath "https://api") 1 500 5000
        (outcomesOf [.transportErr "boom", .transportErr "boom"])).result
      = .error (maxRetriesError (healthCheckPath "https://api") 2
          (some (transportError "boom")))) ∧
    ((healthCheck "https://api" Breaker.initial
        (outcomesOf [.transportErr "boom", .transportErr "boom"])).1 = false) :=
  ⟨by decide,
    (claim_C9_probe "https://api" Breaker.initial
        (outcomesOf [.transportErr "boom", .transportErr "boom"])).2.1
      (maxRetriesError (healthCheckPath "https://api") 2
        (some (transportError "boom")))
      (by decide)⟩

-- ===========================================================================
-- CLAIM C10 — query text excluded from the request key
-- ===========================================================================

/-- C10: for any two valid query strings and the same limit, the
deduplication fingerprint / fallback-cache key computed by `queryMemoriesAPI`
is identical — it is built from the method and a URL carrying only the limit
parameter, and the validated query text never enters it; consequently a
payload cached under one query's key is served, degraded, to a failing call
made with the other query string, and a call arriving while the other
query's request is in flight is deduplicated onto the same handle. -/
theorem claim_C10_query_key (apiUrl q1 q2 : String) (limit : Option Nat)
    (h1 : jsTrim q1 ≠ "") (h2 : jsTrim q2 ≠ "") :
    (queryMemoriesCacheKey apiUrl q1 limit
      = queryMemoriesCacheKey apiUrl q2 limit) ∧
    (∀ vl, validateLimit limit = .ok vl →
      queryMemoriesCacheKey apiUrl q1 limit
        = .ok ("GET:" ++ queryMemoriesURL apiUrl vl)) ∧
    (∀ (α : Type) (data : α) (cache : MemoryCache α) (t1 t2 ttl : Nat)
        (e : APIError) (k : String),
      queryMemoriesCacheKey apiUrl q1 limit = .ok k →
      t2 - t1 ≤ ttl →
      queryMemoriesCacheKey apiUrl q2 limit = .ok k ∧
      (queryPipeline k (.error e)
          (queryPipeline k (.ok data) cache ttl t1).cache ttl t2).result
        = .ok (data, true)) ∧
    (∀ (s : DedupState) (k : String),
      queryMemoriesCacheKey apiUrl q1 limit = .ok k →
      s.pending.find? (fun p => p.1 == k) = none →
      queryMemoriesCacheKey apiUrl q2 limit = .ok k ∧
      DedupState.fetch (s.fetch k).2.2 k
        = ((s.fetch k).1, false, (s.fetch k).2.2)) := by
  have hkeys : queryMemoriesCacheKey apiUrl q1 limit
      = queryMemoriesCacheKey apiUrl q2 limit := by
    simp [queryMemoriesCacheKey, validateQuery, h1, h2, Bind.bind, Except.bind]
  refine ⟨hkeys, fun vl hvl => ?_, ?_, ?_⟩
  · simp [queryMemoriesCacheKey, validateQuery, h1, hvl, Bind.bind, Except.bind,
      Functor.map, Except.map, Pure.pure, Except.pure]
  · intro α data cache t1 t2 ttl e k hk hle
    refine ⟨hkeys ▸ hk, ?_⟩
    rw [queryPipeline_fallback_within_ttl k data cache t1 t2 ttl e hle]
  · intro s k hk hfresh
    exact ⟨hkeys ▸ hk, fetch_dedups hfresh⟩

/-- Witness for C10: two distinct valid queries with the default limit share
the request key. -/
theorem claim_C10_witness :
    (jsTrim "alpha" ≠ "") ∧ (jsTrim "beta" ≠ "") ∧
    (queryMemoriesCacheKey "https://api" "alpha" none
      = queryMemoriesCacheKey "https://api" "beta" none) :=
  ⟨by decide, by decide,
    (claim_C10_query_key "https://api" "alpha" "beta" none
      (by decide) (by decide)).1⟩

-- ===========================================================================
-- CLAIM C2 — the retry loop
-- ===========================================================================

theorem opt_none_orElse {α : Type} (b : Option α) : (none <|> b) = b := rfl

theorem opt_some_orElse {α : Type} (a : α) (b : Option α) :
    (some a <|> b) = some a := rfl

theorem opt_orElse_none {α : Type} (a : Option α) : (a <|> none) = a := by
  cases a <;> rfl

theorem opt_orElse_assoc {α : Type} (a b c : Option α) :
    ((a <|> b) <|> c) = (a <|> (b <|> c)) := by
  cases a <;> rfl

/-- An attempt outcome on which the loop retries (while attempts remain):
a 429 response, a 5xx response, or a thrown timeout/transport failure. -/
def isRetryable : AttemptOutcome → Bool
  | .response r => r.status == 429 || 500 ≤ r.status
  | .timeoutErr => true
  | .transportErr _ => true

/-- The response received on attempt `i`, if that attempt received one. -/
def respAt (outcomes : Nat → AttemptOutcome) (i : Nat) : Option HttpResponse :=
  match outcomes i with
  | .response r => some r
  | _ => none

/-- The `lastError` value recorded for attempt `i`, if that attempt threw. -/
def errAt (url : String) (timeout : Nat) (outcomes : Nat → AttemptOutcome)
    (i : Nat) : Option APIError :=
  match outcomes i with
  | .timeoutErr => some (timeoutError timeout url (i + 1))
  | .transportErr msg => some (transportError msg)
  | .response _ => none

/-- The response of the latest attempt in the window `[lo, lo + len)` that
received one. -/
def lastRespOf (outcomes : Nat → AttemptOutcome) :
    Nat → Nat → Option HttpResponse
  | _, 0 => none
  | lo, len + 1 => (lastRespOf outcomes (lo + 1) len) <|> respAt outcomes lo

/-- The recorded error of the latest attempt in the window `[lo, lo + len)`
that threw. -/
def lastErrOf (url : String) (timeout : Nat) (outcomes : Nat → AttemptOutcome) :
    Nat → Nat → Option APIError
  | _, 0 => none
  | lo, len + 1 =>
    (lastErrOf url timeout outcomes (lo + 1) len) <|> errAt url timeout outcomes lo

theorem retryPostLoop_attempts (url : String) (a : Nat)
    (le : Option APIError) (lr : Option HttpResponse) :
    (retryPostLoop url a le lr).attempts = a := by
  cases lr <;> rfl

theorem fwrGo_exhaust (url : String) (timeout maxRetries : Nat)
    (outcomes : Nat → AttemptOutcome) :
    ∀ (remaining attempt : Nat) (le : Option APIError)
      (lr : Option HttpResponse),
      attempt + remaining = maxRetries + 1 →
      (∀ i, attempt ≤ i → i ≤ maxRetries → isRetryable (outcomes i) = true) →
      fetchWithRetryGo url timeout maxRetries outcomes remaining attempt le lr
        = retryPostLoop url (maxRetries + 1)
            ((lastErrOf url timeout outcomes attempt remaining) <|> le)
            ((lastRespOf outcomes attempt remaining) <|> lr) := by
  intro remaining
  induction remaining with
  | zero =>
    intro attempt le lr hsum _
    have ha : attempt = maxRetries + 1 := by omega
    subst ha
    simp [fetchWithRetryGo, lastErrOf, lastRespOf]
  | succ rem ih =>
    intro attempt le lr hsum hret
    have hat : attempt ≤ maxRetries := by omega
    have hthis := hret attempt le_rfl hat
    rcases Nat.eq_zero_or_pos rem with hrem | hrem
    · -- final iteration: attempt = maxRetries, the guard fails
      subst hrem
      have ha1 : attempt + 1 = maxRetries + 1 := by omega
      have hnlt : ¬ attempt < maxRetries := by omega
      cases ho : outcomes attempt with
      | response r =>
        by_cases h429 : r.status = 429 <;> by_cases h5 : 500 ≤ r.status <;>
          simp [fetchWithRetryGo, ho, h429, h5, hnlt, lastErrOf, lastRespOf,
            respAt, errAt, retryPostLoop, opt_orElse_none, opt_none_orElse,
            opt_some_orElse, ha1]
      | timeoutErr =>
        simp [fetchWithRetryGo, ho, hnlt, lastErrOf, lastRespOf, respAt, errAt,
          retryPostLoop, opt_orElse_none, opt_none_orElse, opt_some_orElse, ha1]
      | transportErr msg =>
        simp [fetchWithRetryGo, ho, hnlt, lastErrOf, lastRespOf, respAt, errAt,
          retryPostLoop, opt_orElse_none, opt_none_orElse, opt_some_orElse, ha1]
    · -- at least one further iteration remains: the guard holds and we recurse
      have hlt : attempt < maxRetries := by omega
      have hsum2 : (attempt + 1) + rem = maxRetries + 1 := by omega
      have hret2 : ∀ i, attempt + 1 ≤ i → i ≤ maxRetries →
          isRetryable (outcomes i) = true :=
        fun i h1 h2 => hret i (by omega) h2
      cases ho : outcomes attempt with
      | response r =>
        have hretry : (r.status == 429 || decide (500 ≤ r.status)) = true := by
          simpa [isRetryable, ho] using hthis
        have hrec := ih (attempt + 1) le (some r) hsum2 hret2
        by_cases h429 : r.status = 429
        · rw [show fetchWithRetryGo url timeout maxRetries outcomes (rem + 1)
                attempt le lr
              = fetchWithRetryGo url timeout maxRetries outcomes rem (attempt + 1)
                le (some r) by simp [fetchWithRetryGo, ho, h429, hlt]]
          rw [hrec]
          simp [lastErrOf, lastRespOf, respAt, errAt, ho, opt_orElse_none,
            opt_none_orElse, opt_some_orElse, opt_orElse_assoc]
        · have h5 : 500 ≤ r.status := by
            rcases Bool.or_eq_true_iff.mp hretry with hx | hx
            · exact absurd (by simpa using hx) h429
            · simpa using hx
          rw [show fetchWithRetryGo url timeout maxRetries outcomes (rem + 1)
                attempt le lr
              = fetchWithRetryGo url timeout maxRetries outcomes rem (attempt + 1)
                le (some r) by simp [fetchWithRetryGo, ho, h429, h5, hlt]]
          rw [hrec]
          simp [lastErrOf, lastRespOf, respAt, errAt, ho, opt_orElse_none,
            opt_none_orElse, opt_some_orElse, opt_orElse_assoc]
      | timeoutErr =>
        have hrec := ih (attempt + 1)
          (some (timeoutError timeout url (attempt + 1))) lr hsum2 hret2
        rw [show fetchWithRetryGo url timeout maxRetries outcomes (rem + 1)
              attempt le lr
            = fetchWithRetryGo url timeout maxRetries outcomes rem (attempt + 1)
              (some (timeoutError timeout url (attempt + 1))) lr by
          simp [fetchWithRetryGo, ho, hlt]]
        rw [hrec]
        simp [lastErrOf, lastRespOf, respAt, errAt, ho, opt_orElse_none,
          opt_none_orElse, opt_some_orElse, opt_orElse_assoc]
      | transportErr msg =>
        have hrec := ih (attempt + 1) (some (transportError msg)) lr hsum2 hret2
        rw [show fetchWithRetryGo url timeout maxRetries outcomes (rem + 1)
              attempt le lr
            = fetchWithRetryGo url timeout maxRetries outcomes rem (attempt + 1)
              (some (transportError msg)) lr by
          simp [fetchWithRetryGo, ho, hlt]]
        rw [hrec]
        simp [lastErrOf, lastRespOf, respAt, errAt, ho, opt_orElse_none,
          opt_none_orElse, opt_some_orElse, opt_orElse_assoc]

/-- C2: with `maxRetries = 3`, the response script `[503, 503, 503, 200]`
makes exactly 4 attempts and returns the 200 response; four transport
failures make exactly 4 attempts and surface a transport error carrying the
last underlying error (message, url, attempt count and original error); and
in general, whenever every scripted attempt is retryable (so attempts are
exhausted), exactly `maxRetries + 1` attempts are made and, if any attempt
received a response, the latest received response is returned rather than a
synthesized failure. -/
theorem claim_C2_retry_loop (url : String) (baseDelay timeout : Nat)
    (b1 b2 b3 b4 m0 m1 m2 m3 : String) (hm3 : m3 ≠ "")
    (maxRetries : Nat) (outcomes : Nat → AttemptOutcome)
    (hret : ∀ i, i ≤ maxRetries → isRetryable (outcomes i) = true) :
    (fetchWithRetry url 3 baseDelay timeout
        (outcomesOf [.response ⟨503, b1⟩, .response ⟨503, b2⟩,
                     .response ⟨503, b3⟩, .response ⟨200, b4⟩])
      = { attempts := 4, result := .ok ⟨200, b4⟩ }) ∧
    (fetchWithRetry url 3 baseDelay timeout
        (outcomesOf [.transportErr m0, .transportErr m1,
                     .transportErr m2, .transportErr m3])
      = { attempts := 4,
          result := .error { message := m3, statusCode := none,
                             url := some url, attempts := some 4,
                             originalError := some m3 } }) ∧
    ((fetchWithRetry url maxRetries baseDelay timeout outcomes).attempts
      = maxRetries + 1) ∧
    (∀ r, lastRespOf outcomes 0 (maxRetries + 1) = some r →
      (fetchWithRetry url maxRetries baseDelay timeout outcomes).result
        = .ok r) := by
  have hmain : fetchWithRetry url maxRetries baseDelay timeout outcomes
      = retryPostLoop url (maxRetries + 1)
          (lastErrOf url timeout outcomes 0 (maxRetries + 1))
          (lastRespOf outcomes 0 (maxRetries + 1)) := by
    rw [fetchWithRetry,
      fwrGo_exhaust url timeout maxRetries outcomes (maxRetries + 1) 0 none none
        (by omega) (fun i _ h2 => hret i h2),
      opt_orElse_none, opt_orElse_none]
  refine ⟨rfl, ?_, ?_, fun r hr => ?_⟩
  · have hstep : fetchWithRetry url 3 baseDelay timeout
        (outcomesOf [.transportErr m0, .transportErr m1,
                     .transportErr m2, .transportErr m3])
      = { attempts := 4,
          result := .error (maxRetriesError url 4 (some (transportError m3))) } :=
      rfl
    rw [hstep]
    simp [maxRetriesError, transportError, jsOrString, hm3]
  · rw [hmain, retryPostLoop_attempts]
  · rw [hmain, hr]
    rfl

/-- Witness for C2: a two-attempt script (transport failure, then a 503)
exhausts the attempts and returns the 503 — the last received response. -/
theorem claim_C2_witness :
    (("e3" : String) ≠ "") ∧
    (lastRespOf (outcomesOf [.transportErr "x", .response ⟨503, "y"⟩]) 0 2
      = some ⟨503, "y"⟩) ∧
    ((fetchWithRetry "u" 1 1000 30000
        (outcomesOf [.transportErr "x", .response ⟨503, "y"⟩])).result
      = .ok ⟨503, "y"⟩) :=
  ⟨by decide, by decide,
    (claim_C2_retry_loop "u" 1000 30000 "a" "b" "c" "d" "e0" "e1" "e2" "e3"
        (by decide) 1 (outcomesOf [.transportErr "x", .response ⟨503, "y"⟩])
        (by intro i hi; interval_cases i <;> decide)).2.2.2
      ⟨503, "y"⟩ (by decide)⟩

end RecallBricks
